import Mathlib

/-!
Shallow embedding of the `simpleforce` Salesforce client library (Go) and proofs
about its behavior.

The embedding covers:
* the error unifier `ParseSalesforceError` and the HTTP-error wrapper
  `parseUhttpError` (`errorHelpers.go`);
* the `Client` state and its operations `Query`, `ExecuteAnonymous`, `ApexREST`,
  `Tooling`/`UnTooling`, `makeURL`, `isLoggedIn` (`force.go`, `tooling.go`);
* the `SObject` record model and the preconditions of its CRUD operations.
  The CRUD implementation file (`sobject.go`) is not among the sources — only
  its tests and the error declaration `ErrNoTypeIdClientOrId` are — so those
  definitions are modelled from the spec and marked as such.

Modelling conventions:
* Go standard-library collaborators (`encoding/json`, `encoding/xml`, the HTTP
  transport) are passed in as explicit function arguments: a JSON/XML decoder is
  a function `String → Option _`, the transport is `HttpReq → Except GoError String`.
  This matches the spec, which treats transport and decoding as external
  collaborators (`send(method, url, …) → (statusCode, body, transportError)`).
* A Go runtime panic is modelled by `Option`/`Except` with a `none`/`.error ()`
  result: `ParseSalesforceError` returns `none` exactly when the Go code would
  crash (indexing `jsonError[0]` on an empty slice).
* `fmt.Sprintf` with `%s` verbs is modelled by `goFmt` (split the format string
  on `%s` and interleave the arguments); `strings.Replace(s, old, new, -1)` by
  `stringsReplaceAll` (left-to-right, non-overlapping, all occurrences;
  call sites never pass an empty pattern); `strings.HasPrefix` by `strStarts`;
  `url.QueryEscape` by `queryEscape` (unreserved bytes kept, space to `+`,
  everything else percent-encoded in uppercase hex over the UTF-8 bytes).
-/

namespace Simpleforce

/-! ## String helpers modelling Go standard-library string functions -/

/-- Whether the first list is an initial segment of the second; models the
byte-wise comparison done by Go `strings.HasPrefix` (char-wise is equivalent
for valid UTF-8 when the pattern consists of whole characters). -/
def listIsInit : List Char → List Char → Bool
  | [], _ => true
  | _ :: _, [] => false
  | p :: ps, c :: cs => p = c && listIsInit ps cs

/-- Models Go `strings.HasPrefix s pat`. -/
def strStarts (s pat : String) : Bool := listIsInit pat.data s.data

/-- Fuel-indexed worker for `stringsReplaceAll`: replaces occurrences of `pat`
left to right, non-overlapping.  The fuel starts at the length of the scanned
list and every step consumes at least one character, so it never runs out. -/
def replaceGo (pat rep : List Char) : Nat → List Char → List Char
  | 0, s => s
  | _ + 1, [] => []
  | n + 1, c :: cs =>
    if pat ≠ [] && listIsInit pat (c :: cs) then
      rep ++ replaceGo pat rep n (List.drop (pat.length - 1) cs)
    else
      c :: replaceGo pat rep n cs

/-- Models Go `strings.Replace s pat rep -1` (replace all occurrences).  The
call sites in this code base never pass an empty pattern, for which this model
returns `s` unchanged. -/
def stringsReplaceAll (s pat rep : String) : String :=
  if pat.data = [] then s else String.mk (replaceGo pat.data rep.data s.data.length s.data)

/-- Splits a format string at each `%s` verb; the pieces are the literal text
between, before and after the verbs. -/
def splitOnPct : List Char → List (List Char)
  | [] => [[]]
  | '%' :: 's' :: rest => [] :: splitOnPct rest
  | c :: rest =>
    match splitOnPct rest with
    | [] => [[c]]
    | p :: ps => (c :: p) :: ps

/-- Interleaves format-string pieces with arguments.  Every call site of the
modelled code supplies exactly as many arguments as there are `%s` verbs. -/
def substPieces : List (List Char) → List String → String
  | [], _ => ""
  | [p], _ => String.mk p
  | p :: ps, a :: args => String.mk p ++ a ++ substPieces ps args
  | p :: _, [] => String.mk p

/-- Models Go `fmt.Sprintf` restricted to `%s` verbs, which is the only verb
used in the URL-building code paths modelled here. -/
def goFmt (fs : String) (args : List String) : String :=
  substPieces (splitOnPct fs.data) args

/-- Uppercase hexadecimal digit for a value below 16. -/
def hexDigitUpper (n : Nat) : Char :=
  if n < 10 then Char.ofNat (48 + n) else Char.ofNat (55 + n)

/-- Bytes Go `url.QueryEscape` leaves unescaped: ASCII letters, digits and
`-` `_` `.` `~`. -/
def isUnreservedQueryNat (n : Nat) : Bool :=
  (65 ≤ n && n ≤ 90) || (97 ≤ n && n ≤ 122) || (48 ≤ n && n ≤ 57) ||
    n == 45 || n == 95 || n == 46 || n == 126

/-- Escapes a single byte the way Go `url.QueryEscape` does: space becomes `+`,
unreserved bytes stay, everything else is percent-encoded. -/
def queryEscapeNat (n : Nat) : String :=
  if n == 32 then "+"
  else if isUnreservedQueryNat n then String.singleton (Char.ofNat n)
  else "%" ++ String.singleton (hexDigitUpper (n / 16)) ++ String.singleton (hexDigitUpper (n % 16))

/-- UTF-8 encoding of a character as its list of byte values. -/
def utf8Bytes (c : Char) : List Nat :=
  let n := c.toNat
  if n < 128 then [n]
  else if n < 2048 then [192 + n / 64, 128 + n % 64]
  else if n < 65536 then [224 + n / 4096, 128 + (n / 64) % 64, 128 + n % 64]
  else [240 + n / 262144, 128 + (n / 4096) % 64, 128 + (n / 64) % 64, 128 + n % 64]

/-- Models Go `url.QueryEscape`: escapes each UTF-8 byte of the string. -/
def queryEscape (s : String) : String :=
  String.join (s.data.map (fun c => String.join ((utf8Bytes c).map queryEscapeNat)))

/-! ## The unified error model (`errorHelpers.go`) -/

/-- One element of the `jsonError` array type of `errorHelpers.go`:
`struct { Message string; ErrorCode string }` with JSON keys `message` and
`errorCode`. -/
structure JsonErrItem where
  message : String
  errorCode : String
deriving DecidableEq, Repr

/-- The `xmlError` type of `errorHelpers.go`: a SOAP fault with
`Body>Fault>faultstring` and `Body>Fault>faultcode`. -/
structure XmlFault where
  message : String
  errorCode : String
deriving DecidableEq, Repr

/-- The `SalesforceError` struct of `errorHelpers.go`. -/
structure SalesforceError where
  Message : String
  HttpCode : Int
  ErrorCode : String
  ErrorMessage : String
deriving DecidableEq, Repr

/-- The message built by both structured branches of `ParseSalesforceError`:
`fmt.Sprintf(logPrefix+" Error. http code: %v Error Message:  %v Error Code: %v", …)`
with `logPrefix = "[simpleforce]"` (note the double space after `Error Message:`,
verbatim from the source). -/
def sfErrorFmt (status : Int) (msg code : String) : String :=
  "[simpleforce] Error. http code: " ++ toString status ++ " Error Message:  " ++ msg
    ++ " Error Code: " ++ code

/-- Embedding of `ParseSalesforceError(statusCode, responseBody)`.  The two
standard-library decoders are passed as arguments: `jd` models
`json.Unmarshal(responseBody, &jsonError)` (returning `some` of the decoded
array on success), `xd` models `xml.Unmarshal(responseBody, &xmlError)`.
The Go code indexes `jsonError[0]` without checking the length, so a successful
JSON decode of an empty array makes it panic; that crash is modelled by the
result `none`. -/
def ParseSalesforceError (jd : String → Option (List JsonErrItem))
    (xd : String → Option XmlFault) (statusCode : Int) (responseBody : String) :
    Option SalesforceError :=
  match jd responseBody with
  | some [] => none
  | some (e :: _) =>
    some { Message := sfErrorFmt statusCode e.message e.errorCode
           HttpCode := statusCode
           ErrorCode := e.errorCode
           ErrorMessage := e.message }
  | none =>
    match xd responseBody with
    | some f =>
      some { Message := sfErrorFmt statusCode f.message f.errorCode
             HttpCode := statusCode
             ErrorCode := f.errorCode
             ErrorMessage := f.message }
    | none =>
      some { Message := responseBody
             HttpCode := statusCode
             ErrorCode := ""
             ErrorMessage := "" }

/-- Go `error` values flowing through the modelled code: transport failures,
unified Salesforce errors, the result of `errors.Join` on two non-nil errors,
and the sentinel/decode errors returned by the client operations. -/
inductive GoError where
  | transport (msg : String)
  | sf (e : SalesforceError)
  | joined (a b : GoError)
  | authentication
  | decodeErr (body : String)
deriving DecidableEq, Repr

/-- Models Go `errors.Join(a, b)` for two arguments: nil errors are discarded,
and the result is nil only when both are nil. -/
def errorsJoin : Option GoError → Option GoError → Option GoError
  | none, none => none
  | some a, none => some a
  | none, some b => some b
  | some a, some b => some (.joined a b)

/-- An HTTP response as seen by `parseUhttpError`: status code and body.  Per
the spec's transport interface the body is delivered as bytes together with the
response, so reading it cannot fail in this model. -/
structure Response where
  status : Int
  body : String
deriving DecidableEq, Repr

/-- Embedding of `parseUhttpError(ctx, resp, errHttp)`: a nil response returns
`errHttp` unchanged; a response with a status outside 200–299 joins `errHttp`
with the parsed Salesforce error; a 2xx response returns `errHttp` unchanged.
The outer `Except Unit` propagates the panic of `ParseSalesforceError`
(`.error ()` when the Go code would crash). -/
def parseUhttpError (jd : String → Option (List JsonErrItem))
    (xd : String → Option XmlFault) (resp : Option Response)
    (errHttp : Option GoError) : Except Unit (Option GoError) :=
  match resp with
  | none => .ok errHttp
  | some r =>
    if r.status < 200 ∨ 299 < r.status then
      match ParseSalesforceError jd xd r.status r.body with
      | none => .error ()
      | some se => .ok (errorsJoin errHttp (some (.sf se)))
    else
      .ok errHttp

/-! ## The client (`force.go`, `tooling.go`) -/

/-- The nested `user` struct of `Client`. -/
structure ClientUser where
  id : String := ""
  name : String := ""
  fullName : String := ""
  email : String := ""
deriving DecidableEq, Repr

/-- The `Client` struct of `force.go`.  The `httpClient` field is the external
transport and is modelled by the `send` argument of each operation. -/
structure Client where
  sessionID : String := ""
  user : ClientUser := {}
  clientID : String := ""
  apiVersion : String := ""
  baseURL : String := ""
  instanceURL : String := ""
  useToolingAPI : Bool := false
deriving DecidableEq, Repr

/-- Embedding of `Client.isLoggedIn`: the session ID is non-empty. -/
def Client.isLoggedIn (client : Client) : Bool :=
  client.sessionID != ""

/-- An HTTP request built by a client operation: method and URL.  Producing a
request (as data) separates URL construction from the external transport. -/
structure HttpReq where
  method : String
  url : String
deriving DecidableEq, Repr

/-- The URL built by `Client.Query` for input `q` (lines 76–88 of `force.go`):
if `q` has the prefix `/services/data` it is a `nextRecordsURL` and is appended
to the instance URL; otherwise the format string `%s/services/data/v%s/query?q=%s`
(with `query` rewritten to `tooling/query` by `strings.Replace` when
`useToolingAPI` is set) is filled with the instance URL, the API version and
the query-escaped `q`. -/
def Client.queryURL (client : Client) (q : String) : String :=
  if strStarts q "/services/data" then
    client.instanceURL ++ q
  else
    let fs0 := "%s/services/data/v%s/query?q=%s"
    let fs := if client.useToolingAPI then stringsReplaceAll fs0 "query" "tooling/query" else fs0
    goFmt fs [client.instanceURL, client.apiVersion, queryEscape q]

/-- Embedding of `Client.makeURL(req)`.  Note that the Go code assigns
`client.apiVersion = strings.Replace(client.apiVersion, "v", "", -1)` before
formatting, mutating the client; the model returns the updated client together
with the URL. -/
def Client.makeURL (client : Client) (req : String) : Client × String :=
  let client' := { client with apiVersion := stringsReplaceAll client.apiVersion "v" "" }
  (client', goFmt "%s/services/data/v%s/%s" [client'.instanceURL, client'.apiVersion, req])

/-- Embedding of `Client.Tooling()` (`tooling.go`): sets the sticky
`useToolingAPI` flag on the client. -/
def Client.Tooling (client : Client) : Client :=
  { client with useToolingAPI := true }

/-- Embedding of `Client.UnTooling()` (`tooling.go`): clears the
`useToolingAPI` flag. -/
def Client.UnTooling (client : Client) : Client :=
  { client with useToolingAPI := false }

/-- Client-level operations relevant to the tooling-mode flag, for stating the
stickiness of the flag across a sequence of calls. -/
inductive COp where
  | query (q : String)
  | doTooling
  | doUnTooling
deriving DecidableEq, Repr

/-- Effect of each operation on the client state: `Query` reads but never
writes the client (its body in `force.go` contains no assignment to client
fields), `Tooling`/`UnTooling` toggle the flag. -/
def applyOp (client : Client) : COp → Client
  | .query _ => client
  | .doTooling => client.Tooling
  | .doUnTooling => client.UnTooling

/-! ## The record model and query results -/

/-- The `SObject` record.  Modelled from the spec: `sobject.go` is not among
the sources (only its tests are), so the record is represented per §3 of the
spec as a data mapping plus the reserved metadata: the owning-client binding,
the type name from `attributes`, the remote identifier, and the external-id
field-name marker.  Field values are modelled as strings, which is all the
properties below require; an empty string stands for an absent identifier,
matching the zero-value reads of the Go map. -/
structure SObject where
  client : Option Client := none
  typeName : String := ""
  id : String := ""
  externalIDField : String := ""
  fields : List (String × String) := []
deriving DecidableEq, Repr

/-- Modelled from the spec: `setClient` (in the missing `sobject.go`) binds a
record to its owning client, which is required for any further network
operation on the record. -/
def SObject.setClient (o : SObject) (c : Client) : SObject :=
  { o with client := some c }

/-- Modelled from the spec: `StringField` returns the stored value or the
empty string when the key is absent (zero-value fallback, §4.1). -/
def SObject.stringField (o : SObject) (n : String) : String :=
  ((o.fields.find? (fun p => p.1 == n)).map (fun p => p.2)).getD ""

/-- The `QueryResult` struct of `force.go`. -/
structure QueryResult where
  totalSize : Int
  done : Bool
  nextRecordsURL : String
  records : List SObject
deriving DecidableEq, Repr

/-- Embedding of `Client.Query(ctx, q)`: fails with the authentication error
when not logged in; otherwise builds the URL (`Client.queryURL`), sends a GET
through the transport `send`, decodes the body with `um` (modelling
`json.Unmarshal` into `QueryResult`), and re-binds every record of the result
to the issuing client (`for idx := range result.Records { … setClient(client) }`). -/
def Client.Query (client : Client) (q : String)
    (send : HttpReq → Except GoError String)
    (um : String → Option QueryResult) : Except GoError QueryResult :=
  if !client.isLoggedIn then .error .authentication
  else
    match send ⟨"GET", client.queryURL q⟩ with
    | .error e => .error e
    | .ok data =>
      match um data with
      | none => .error (.decodeErr data)
      | some result =>
        .ok { result with records := result.records.map (fun r => r.setClient client) }

/-- The `ExecuteAnonymousResult` struct of `tooling.go`.  The three
`interface{}` fields hold arbitrary JSON values; they are modelled opaquely as
optional strings since no property below inspects them. -/
structure ExecuteAnonymousResult where
  line : Int := 0
  column : Int := 0
  compiled : Bool := false
  success : Bool := false
  compileProblem : Option String := none
  exceptionStackTrace : Option String := none
  exceptionMessage : Option String := none
deriving DecidableEq, Repr

/-- Embedding of `Client.ExecuteAnonymous(ctx, apexBody)` (`tooling.go`):
fails with the authentication error when not logged in; otherwise GETs the
tooling execute-anonymous endpoint with the escaped Apex body and decodes the
response. -/
def Client.ExecuteAnonymous (client : Client) (apexBody : String)
    (send : HttpReq → Except GoError String)
    (um : String → Option ExecuteAnonymousResult) : Except GoError ExecuteAnonymousResult :=
  if !client.isLoggedIn then .error .authentication
  else
    let endpoint := goFmt "%s/services/data/v%s/tooling/executeAnonymous/?anonymousBody=%s"
      [client.instanceURL, client.apiVersion, queryEscape apexBody]
    match send ⟨"GET", endpoint⟩ with
    | .error e => .error e
    | .ok data =>
      match um data with
      | none => .error (.decodeErr data)
      | some result => .ok result

/-- Embedding of `Client.ApexREST(ctx, method, path, body)` (`force.go`):
fails with the authentication error when not logged in; otherwise sends the
request to `fmt.Sprintf("%s/%s", instanceURL, path)` and returns the raw body. -/
def Client.ApexREST (client : Client) (method path : String)
    (send : HttpReq → Except GoError String) : Except GoError String :=
  if !client.isLoggedIn then .error .authentication
  else
    send ⟨method, goFmt "%s/%s" [client.instanceURL, path]⟩

/-! ## CRUD preconditions (modelled from the spec)

The CRUD implementation file `sobject.go` is not among the sources; the
definitions below are modelled from §4.2 of the spec, which the surviving
declaration `ErrNoTypeIdClientOrId` (`errorHelpers.go`) and the tests in
`sobject_test.go` corroborate: every operation requires a bound client and a
non-empty type; `get`, `update` and `delete` additionally require a remote
identifier; a violated precondition fails immediately and locally with
`ErrNoTypeIdClientOrId`, before any request is built.  An operation's result is
either that local error or the HTTP request it would hand to the transport, so
`.error` simultaneously models the nil returned record and the absence of a
network round-trip. -/

/-- Local precondition errors of the CRUD operations. -/
inductive CrudError where
  | noTypeIdClientOrId
  | missingExternalId
deriving DecidableEq, Repr

/-- Modelled from the spec: the identifier used by `Get` — an explicit argument
takes priority, otherwise the record's stored id is used. -/
def SObject.resolveId (o : SObject) (eid : Option String) : String :=
  match eid with
  | some i => i
  | none => o.id

/-- Modelled from the spec: `Get` requires client, type and an identifier and
issues a GET to the type's identity-keyed resource path. -/
def SObject.getReq (o : SObject) (eid : Option String) : Except CrudError HttpReq :=
  match o.client with
  | none => .error .noTypeIdClientOrId
  | some c =>
    if o.typeName = "" ∨ o.resolveId eid = "" then .error .noTypeIdClientOrId
    else .ok ⟨"GET", (c.makeURL ("sobjects/" ++ o.typeName ++ "/" ++ o.resolveId eid)).2⟩

/-- Modelled from the spec: `Create` requires client and type and POSTs to the
type's collection endpoint. -/
def SObject.createReq (o : SObject) : Except CrudError HttpReq :=
  match o.client with
  | none => .error .noTypeIdClientOrId
  | some c =>
    if o.typeName = "" then .error .noTypeIdClientOrId
    else .ok ⟨"POST", (c.makeURL ("sobjects/" ++ o.typeName)).2⟩

/-- Modelled from the spec: `Update` requires client, type and the stored
identifier and PATCHes the identity-keyed resource path. -/
def SObject.updateReq (o : SObject) : Except CrudError HttpReq :=
  match o.client with
  | none => .error .noTypeIdClientOrId
  | some c =>
    if o.typeName = "" ∨ o.id = "" then .error .noTypeIdClientOrId
    else .ok ⟨"PATCH", (c.makeURL ("sobjects/" ++ o.typeName ++ "/" ++ o.id)).2⟩

/-- Modelled from the spec: `Upsert` requires client and type (failing with
`ErrNoTypeIdClientOrId` like the other operations), then the external-id marker
and a value for that field (failing locally with the missing-external-id error),
and PATCHes the external-id-addressed endpoint. -/
def SObject.upsertReq (o : SObject) : Except CrudError HttpReq :=
  match o.client with
  | none => .error .noTypeIdClientOrId
  | some c =>
    if o.typeName = "" then .error .noTypeIdClientOrId
    else if o.externalIDField = "" ∨ o.stringField o.externalIDField = "" then
      .error .missingExternalId
    else
      .ok ⟨"PATCH", (c.makeURL ("sobjects/" ++ o.typeName ++ "/" ++ o.externalIDField
        ++ "/" ++ o.stringField o.externalIDField)).2⟩

/-- Modelled from the spec: `Delete` requires client, type and the stored
identifier and DELETEs the identity-keyed resource path. -/
def SObject.deleteReq (o : SObject) : Except CrudError HttpReq :=
  match o.client with
  | none => .error .noTypeIdClientOrId
  | some c =>
    if o.typeName = "" ∨ o.id = "" then .error .noTypeIdClientOrId
    else .ok ⟨"DELETE", (c.makeURL ("sobjects/" ++ o.typeName ++ "/" ++ o.id)).2⟩

/-! ## Concrete test fixtures

Concrete clients, records and decoder instances used by the witness and
counterexample theorems below.  The decoder fixtures return on their designated
inputs exactly what Go `encoding/json` / `encoding/xml` return there: decoding
`"[]"` or `"null"` into a slice succeeds (leaving the slice empty), a JSON
error array decodes to its elements, a non-XML body fails the XML decode. -/

/-- Decoder fixture: the JSON error array with message `X` and code `Y`. -/
def fixJdXY : String → Option (List JsonErrItem) :=
  fun b => if b = "[\x7b\"message\":\"X\",\"errorCode\":\"Y\"\x7d]" then some [⟨"X", "Y"⟩] else none

/-- Decoder fixture: an XML SOAP fault body. -/
def fixXdFault : String → Option XmlFault :=
  fun b => if b = "<soap fault>" then some ⟨"bad login", "sf:INVALID_LOGIN"⟩ else none

/-- Decoder fixture: the body `[]` decodes to an empty slice, as Go
`json.Unmarshal` succeeds on it. -/
def fixJdEmptyArr : String → Option (List JsonErrItem) :=
  fun b => if b = "[]" then some [] else none

/-- Decoder fixture: the body `null` decodes successfully leaving the slice
nil, as Go `json.Unmarshal` does. -/
def fixJdNull : String → Option (List JsonErrItem) :=
  fun b => if b = "null" then some [] else none

/-- Decoder fixture: the XML decode always fails. -/
def fixXdNone : String → Option XmlFault := fun _ => none

/-- A logged-in client fixture. -/
def fixClient : Client :=
  { sessionID := "SID123", apiVersion := "54.0", baseURL := "https://login.salesforce.com",
    instanceURL := "https://na1.salesforce.com" }

/-- A client fixture whose stored API version still carries the `v` that
`makeURL` strips in place. -/
def fixClientV : Client :=
  { sessionID := "SID123", apiVersion := "v54.0", instanceURL := "https://na1.salesforce.com" }

/-- A record fixture with neither client binding nor type. -/
def fixUnboundObj : SObject := {}

/-- A record fixture with client and type but no identifier. -/
def fixNoIdObj : SObject := { client := some fixClient, typeName := "Case" }

/-- Transport fixture: every request succeeds with body `page1`. -/
def fixSend : HttpReq → Except GoError String := fun _ => .ok "page1"

/-- A decoded record fixture, not yet bound to a client. -/
def fixRecord : SObject := { typeName := "Case", id := "500xx000001" }

/-- Unmarshal fixture: body `page1` decodes to a one-record result page. -/
def fixUm : String → Option QueryResult :=
  fun s => if s = "page1" then some ⟨1, true, "", [fixRecord]⟩ else none

/-- The query result produced from `fixSend`/`fixUm`: the record re-bound to
`fixClient`. -/
def fixQueryRes : QueryResult :=
  ⟨1, true, "", [fixRecord.setClient fixClient]⟩

/-- A client fixture that is not logged in (empty session ID). -/
def fixLoggedOut : Client :=
  { sessionID := "", apiVersion := "54.0", instanceURL := "https://na1.salesforce.com" }

/-! ## Helper lemmas -/

/-- Associativity of string append, at the level of the underlying char lists. -/
theorem strAppend_assoc (a b c : String) : (a ++ b) ++ c = a ++ (b ++ c) := by
  obtain ⟨x⟩ := a
  obtain ⟨y⟩ := b
  obtain ⟨z⟩ := c
  exact congrArg String.mk (List.append_assoc x y z)

/-- The `strings.Replace` call of `Client.Query` rewrites the query format
string to its tooling variant. -/
theorem replace_query_fmt :
    stringsReplaceAll "%s/services/data/v%s/query?q=%s" "query" "tooling/query" =
      "%s/services/data/v%s/tooling/query?q=%s" := by decide

/-- Filling the standard query format string is plain concatenation. -/
theorem goFmt_query (a b c : String) :
    goFmt "%s/services/data/v%s/query?q=%s" [a, b, c] =
      a ++ "/services/data/v" ++ b ++ "/query?q=" ++ c := by
  obtain ⟨la⟩ := a
  obtain ⟨lb⟩ := b
  obtain ⟨lc⟩ := c
  simp [goFmt, splitOnPct, substPieces, String.append, strAppend_assoc]

/-- Filling the tooling query format string is plain concatenation. -/
theorem goFmt_toolingquery (a b c : String) :
    goFmt "%s/services/data/v%s/tooling/query?q=%s" [a, b, c] =
      a ++ "/services/data/v" ++ b ++ "/tooling/query?q=" ++ c := by
  obtain ⟨la⟩ := a
  obtain ⟨lb⟩ := b
  obtain ⟨lc⟩ := c
  simp [goFmt, splitOnPct, substPieces, String.append, strAppend_assoc]

/-- Closed form of `Client.queryURL` on a non-continuation input: the query (or
tooling-query) endpoint with the escaped query string. -/
theorem queryURL_spec (c : Client) (q : String) (h : strStarts q "/services/data" = false) :
    c.queryURL q =
      c.instanceURL ++ "/services/data/v" ++ c.apiVersion ++
        (if c.useToolingAPI then "/tooling/query?q=" else "/query?q=") ++ queryEscape q := by
  unfold Client.queryURL
  rw [h]
  cases htool : c.useToolingAPI <;>
    simp [htool, replace_query_fmt, goFmt_query, goFmt_toolingquery, String.append_assoc]

/-- Closed form of `Client.queryURL` on a continuation token: appended to the
instance URL. -/
theorem queryURL_cont (c : Client) (q : String) (h : strStarts q "/services/data" = true) :
    c.queryURL q = c.instanceURL ++ q := by
  unfold Client.queryURL
  rw [h]
  simp

/-- No client operation changes the instance URL. -/
theorem applyOp_instanceURL (c : Client) (op : COp) :
    (applyOp c op).instanceURL = c.instanceURL := by
  cases op <;> rfl

/-- No client operation changes the API version. -/
theorem applyOp_apiVersion (c : Client) (op : COp) :
    (applyOp c op).apiVersion = c.apiVersion := by
  cases op <;> rfl

/-- The instance URL is invariant across any sequence of client operations. -/
theorem foldl_applyOp_instanceURL (ops : List COp) (c : Client) :
    (ops.foldl applyOp c).instanceURL = c.instanceURL := by
  induction ops generalizing c with
  | nil => rfl
  | cons op rest ih => rw [List.foldl_cons, ih, applyOp_instanceURL]

/-- The API version is invariant across any sequence of client operations. -/
theorem foldl_applyOp_apiVersion (ops : List COp) (c : Client) :
    (ops.foldl applyOp c).apiVersion = c.apiVersion := by
  induction ops generalizing c with
  | nil => rfl
  | cons op rest ih => rw [List.foldl_cons, ih, applyOp_apiVersion]

/-- A set tooling flag stays set across any sequence of operations that never
calls `UnTooling`. -/
theorem foldl_applyOp_tooling_true (ops : List COp) (c : Client)
    (hops : COp.doUnTooling ∉ ops) (hc : c.useToolingAPI = true) :
    (ops.foldl applyOp c).useToolingAPI = true := by
  induction ops generalizing c with
  | nil => exact hc
  | cons op rest ih =>
    rw [List.foldl_cons]
    refine ih _ (fun hm => hops (List.mem_cons_of_mem _ hm)) ?_
    cases op with
    | query q => exact hc
    | doTooling => rfl
    | doUnTooling => exact absurd (List.mem_cons_self _ _) hops

/-- A cleared tooling flag stays cleared across any sequence of operations
that never calls `Tooling`. -/
theorem foldl_applyOp_tooling_false (ops : List COp) (c : Client)
    (hops : COp.doTooling ∉ ops) (hc : c.useToolingAPI = false) :
    (ops.foldl applyOp c).useToolingAPI = false := by
  induction ops generalizing c with
  | nil => exact hc
  | cons op rest ih =>
    rw [List.foldl_cons]
    refine ih _ (fun hm => hops (List.mem_cons_of_mem _ hm)) ?_
    cases op with
    | query q => exact hc
    | doTooling => exact absurd (List.mem_cons_self _ _) hops
    | doUnTooling => rfl

/-! ## Claim theorems -/

/-- C1 (amended): for every status code and response body, and every behavior
of the JSON and XML decoders, `ParseSalesforceError` tries the decoders in the
fixed order — the JSON error array first, using its first element when the
decoded array is non-empty; the SOAP/XML fault when the JSON decode fails; and
otherwise the fallback error whose message is the verbatim body with an empty
error code.  (The amendment: the original claim also covered a successful JSON
decode of an empty array, where the code crashes instead of producing an
error — see the counterexample.) -/
theorem parse_error_decoder_order (jd : String → Option (List JsonErrItem))
    (xd : String → Option XmlFault) (st : Int) (body : String) :
    (∀ e es, jd body = some (e :: es) →
      ParseSalesforceError jd xd st body =
        some ⟨sfErrorFmt st e.message e.errorCode, st, e.errorCode, e.message⟩) ∧
    (jd body = none → ∀ f, xd body = some f →
      ParseSalesforceError jd xd st body =
        some ⟨sfErrorFmt st f.message f.errorCode, st, f.errorCode, f.message⟩) ∧
    (jd body = none → xd body = none →
      ParseSalesforceError jd xd st body = some ⟨body, st, "", ""⟩) := by
  refine ⟨?_, ?_, ?_⟩
  · intro e es h
    simp [ParseSalesforceError, h]
  · intro hj f hx
    simp [ParseSalesforceError, hj, hx]
  · intro hj hx
    simp [ParseSalesforceError, hj, hx]

/-- Witness for C1: the three decoder branches evaluated on concrete inputs. -/
theorem parse_error_decoder_order_witness :
    ParseSalesforceError fixJdXY fixXdFault 400 "[\x7b\"message\":\"X\",\"errorCode\":\"Y\"\x7d]" =
      some ⟨sfErrorFmt 400 "X" "Y", 400, "Y", "X"⟩ ∧
    ParseSalesforceError fixJdXY fixXdFault 500 "<soap fault>" =
      some ⟨sfErrorFmt 500 "bad login" "sf:INVALID_LOGIN", 500, "sf:INVALID_LOGIN", "bad login"⟩ ∧
    ParseSalesforceError fixJdXY fixXdFault 502 "Bad Gateway" = some ⟨"Bad Gateway", 502, "", ""⟩ :=
  ⟨(parse_error_decoder_order fixJdXY fixXdFault 400 _).1 ⟨"X", "Y"⟩ [] (by decide),
   (parse_error_decoder_order fixJdXY fixXdFault 500 _).2.1 (by decide)
     ⟨"bad login", "sf:INVALID_LOGIN"⟩ (by decide),
   (parse_error_decoder_order fixJdXY fixXdFault 502 _).2.2 (by decide) (by decide)⟩

/-- C1 counterexample: on the body `[]` with status 400 the JSON decode
succeeds with an empty array (as Go `json.Unmarshal` does) and
`ParseSalesforceError` produces no unified error at all — the Go code panics
indexing `jsonError[0]`, modelled by the result `none`. -/
theorem parse_error_empty_array_cex :
    ParseSalesforceError fixJdEmptyArr fixXdNone 400 "[]" = none := by decide

/-- C2: the claim states that constructing the unified error never fails, for
every body including empty JSON arrays and JSON null; the code violates it.
With decoders behaving exactly as Go `encoding/json` does on the bodies `null`
and `[]` (the decode succeeds and leaves the slice empty), the function crashes
instead of returning a typed error value — `none` models the index-out-of-range
panic at `jsonError[0]`. -/
theorem parse_error_null_body_crashes :
    ParseSalesforceError fixJdNull fixXdNone 400 "null" = none ∧
    ParseSalesforceError fixJdEmptyArr fixXdNone 500 "[]" = none := by decide

/-- C3 counterexample: for the JSON array body with message `X` and code `Y`
at status 400, the returned error's `Message` field is the formatted summary
string, not `X` verbatim — `X` is stored in `ErrorMessage` instead. -/
theorem parse_error_message_not_verbatim_cex :
    (ParseSalesforceError fixJdXY fixXdNone 400
        "[\x7b\"message\":\"X\",\"errorCode\":\"Y\"\x7d]").map SalesforceError.Message =
      some (sfErrorFmt 400 "X" "Y") ∧
    (ParseSalesforceError fixJdXY fixXdNone 400
        "[\x7b\"message\":\"X\",\"errorCode\":\"Y\"\x7d]").map SalesforceError.Message ≠
      some "X" := by decide

/-- C3 (amended): given the JSON array body `[{"message":"X","errorCode":"Y"}]`
with status 400, the returned error's remote error message (`ErrorMessage`) is
`X` and its error code is `Y`, while its `Message` field is the formatted
summary; given an XML fault body, the returned error's remote error message
equals the fault string; given a body neither decoder accepts, the returned
error's `Message` equals the raw body text verbatim. -/
theorem parse_error_message_fields (jd : String → Option (List JsonErrItem))
    (xd : String → Option XmlFault) (st : Int) (body fs fc : String) :
    (jd "[\x7b\"message\":\"X\",\"errorCode\":\"Y\"\x7d]" = some [⟨"X", "Y"⟩] →
      ParseSalesforceError jd xd 400 "[\x7b\"message\":\"X\",\"errorCode\":\"Y\"\x7d]" =
        some ⟨sfErrorFmt 400 "X" "Y", 400, "Y", "X"⟩) ∧
    (jd body = none → xd body = some ⟨fs, fc⟩ →
      (ParseSalesforceError jd xd st body).map SalesforceError.ErrorMessage = some fs) ∧
    (jd body = none → xd body = none →
      (ParseSalesforceError jd xd st body).map SalesforceError.Message = some body) := by
  refine ⟨?_, ?_, ?_⟩
  · intro h
    simp [ParseSalesforceError, h]
  · intro hj hx
    simp [ParseSalesforceError, hj, hx]
  · intro hj hx
    simp [ParseSalesforceError, hj, hx]

/-- Witness for C3: the three cases evaluated on concrete decoders and bodies. -/
theorem parse_error_message_fields_witness :
    ParseSalesforceError fixJdXY fixXdFault 400 "[\x7b\"message\":\"X\",\"errorCode\":\"Y\"\x7d]" =
      some ⟨sfErrorFmt 400 "X" "Y", 400, "Y", "X"⟩ ∧
    (ParseSalesforceError fixJdXY fixXdFault 500 "<soap fault>").map SalesforceError.ErrorMessage =
      some "bad login" ∧
    (ParseSalesforceError fixJdXY fixXdFault 502 "Bad Gateway").map SalesforceError.Message =
      some "Bad Gateway" :=
  ⟨(parse_error_message_fields fixJdXY fixXdFault 400 "" "" "").1 (by decide),
   (parse_error_message_fields fixJdXY fixXdFault 500 "<soap fault>" "bad login"
      "sf:INVALID_LOGIN").2.1 (by decide) (by decide),
   (parse_error_message_fields fixJdXY fixXdFault 502 "Bad Gateway" "" "").2.2
     (by decide) (by decide)⟩

/-- C4: for every input `q` of `Client.Query`, if `q` begins with the
resource-path prefix `/services/data` it is treated as a continuation token and
appended directly to the instance URL; otherwise `q` is URL-escaped and sent as
the `q=` parameter of the query endpoint, or of the tooling-query endpoint when
the client's tooling mode is active. -/
theorem query_input_disambiguation (c : Client) (q : String) :
    (strStarts q "/services/data" = true → c.queryURL q = c.instanceURL ++ q) ∧
    (strStarts q "/services/data" = false → c.useToolingAPI = false →
      c.queryURL q =
        c.instanceURL ++ "/services/data/v" ++ c.apiVersion ++ "/query?q=" ++ queryEscape q) ∧
    (strStarts q "/services/data" = false → c.useToolingAPI = true →
      c.queryURL q =
        c.instanceURL ++ "/services/data/v" ++ c.apiVersion ++ "/tooling/query?q=" ++
          queryEscape q) := by
  refine ⟨?_, ?_, ?_⟩
  · intro h
    exact queryURL_cont c q h
  · intro h ht
    rw [queryURL_spec c q h, ht]
    simp
  · intro h ht
    rw [queryURL_spec c q h, ht]
    simp

/-- Witness for C4: the three URL shapes on concrete queries and clients. -/
theorem query_input_disambiguation_witness :
    fixClient.queryURL "/services/data/v54.0/query/01gxx-2000" =
      "https://na1.salesforce.com" ++ "/services/data/v54.0/query/01gxx-2000" ∧
    fixClient.queryURL "SELECT Id FROM Case" =
      "https://na1.salesforce.com" ++ "/services/data/v" ++ "54.0" ++ "/query?q=" ++
        queryEscape "SELECT Id FROM Case" ∧
    (fixClient.Tooling).queryURL "SELECT Id FROM Layout" =
      "https://na1.salesforce.com" ++ "/services/data/v" ++ "54.0" ++ "/tooling/query?q=" ++
        queryEscape "SELECT Id FROM Layout" :=
  ⟨(query_input_disambiguation fixClient _).1 (by decide),
   (query_input_disambiguation fixClient _).2.1 (by decide) rfl,
   (query_input_disambiguation fixClient.Tooling _).2.2 (by decide) rfl⟩

/-- C5 (spec-modelled, confirmed): every CRUD operation requires a bound client
and a non-empty type, and `Get`, `Update`, `Delete` additionally require a
remote identifier (explicit argument or stored on the record); violating any
such precondition fails immediately and locally with `ErrNoTypeIdClientOrId`
(the `.error` result carries no request, so no network round-trip is attempted
and no record is returned). -/
theorem crud_preconditions (o : SObject) (eid : Option String) :
    ((o.client = none ∨ o.typeName = "") →
      o.getReq eid = .error .noTypeIdClientOrId ∧
      o.createReq = .error .noTypeIdClientOrId ∧
      o.updateReq = .error .noTypeIdClientOrId ∧
      o.upsertReq = .error .noTypeIdClientOrId ∧
      o.deleteReq = .error .noTypeIdClientOrId) ∧
    (o.resolveId eid = "" → o.getReq eid = .error .noTypeIdClientOrId) ∧
    (o.id = "" →
      o.updateReq = .error .noTypeIdClientOrId ∧
      o.deleteReq = .error .noTypeIdClientOrId) := by
  refine ⟨?_, ?_, ?_⟩
  · rintro (hc | ht)
    · simp [SObject.getReq, SObject.createReq, SObject.updateReq, SObject.upsertReq,
        SObject.deleteReq, hc]
    · cases hc : o.client <;>
        simp [SObject.getReq, SObject.createReq, SObject.updateReq, SObject.upsertReq,
          SObject.deleteReq, hc, ht]
  · intro hid
    cases hc : o.client <;> simp [SObject.getReq, hc, hid]
  · intro hid
    cases hc : o.client <;>
      simp [SObject.updateReq, SObject.deleteReq, hc, hid]

/-- Witness for C5: an unbound record and an id-less record fail every
relevant operation with the precondition error. -/
theorem crud_preconditions_witness :
    (fixUnboundObj.getReq none = .error .noTypeIdClientOrId ∧
     fixUnboundObj.createReq = .error .noTypeIdClientOrId ∧
     fixUnboundObj.updateReq = .error .noTypeIdClientOrId ∧
     fixUnboundObj.upsertReq = .error .noTypeIdClientOrId ∧
     fixUnboundObj.deleteReq = .error .noTypeIdClientOrId) ∧
    fixNoIdObj.getReq none = .error .noTypeIdClientOrId ∧
    (fixNoIdObj.updateReq = .error .noTypeIdClientOrId ∧
     fixNoIdObj.deleteReq = .error .noTypeIdClientOrId) :=
  ⟨(crud_preconditions fixUnboundObj none).1 (Or.inl rfl),
   (crud_preconditions fixNoIdObj none).2.1 rfl,
   (crud_preconditions fixNoIdObj none).2.2 rfl⟩

/-- C6 counterexample: the claim asserts that every non-2xx response yields the
join of the transport error with the parsed Salesforce error, but on the body
`[]` (whose JSON decode succeeds with an empty array, as in Go) the error parse
crashes and no joined result is produced. -/
theorem transport_error_join_panic_cex :
    parseUhttpError fixJdEmptyArr fixXdNone (some ⟨400, "[]"⟩)
      (some (.transport "connection reset")) = .error () := rfl

/-- C6 (amended): when no response was received, the transport error is
surfaced as-is; when a response with a non-2xx status was received and the
error parse does not crash, the result joins the transport error (when
present) with the `SalesforceError` parsed from the body, preserving both
causes.  (The amendment: the original claim also covered bodies whose JSON
decode succeeds with an empty array, where the parse crashes — see the
counterexample.) -/
theorem transport_error_join (jd : String → Option (List JsonErrItem))
    (xd : String → Option XmlFault) (r : Response) (errHttp : Option GoError) :
    (∀ e0, parseUhttpError jd xd none e0 = .ok e0) ∧
    ((r.status < 200 ∨ 299 < r.status) →
      ∀ se, ParseSalesforceError jd xd r.status r.body = some se →
        parseUhttpError jd xd (some r) errHttp = .ok (errorsJoin errHttp (some (.sf se)))) ∧
    (∀ e, (r.status < 200 ∨ 299 < r.status) →
      ∀ se, ParseSalesforceError jd xd r.status r.body = some se →
        parseUhttpError jd xd (some r) (some e) = .ok (some (.joined e (.sf se)))) := by
  refine ⟨fun e0 => rfl, ?_, ?_⟩
  · intro hst se hse
    simp [parseUhttpError, hst, hse]
  · intro e hst se hse
    simp [parseUhttpError, hst, hse, errorsJoin]

/-- Witness for C6: a nil response surfaces the transport error unchanged; a
502 response joins the (possibly absent) transport error with the parsed
fallback error. -/
theorem transport_error_join_witness :
    parseUhttpError fixJdXY fixXdFault none (some (.transport "dial timeout")) =
      .ok (some (.transport "dial timeout")) ∧
    parseUhttpError fixJdXY fixXdFault (some ⟨502, "Bad Gateway"⟩) none =
      .ok (errorsJoin none (some (.sf ⟨"Bad Gateway", 502, "", ""⟩))) ∧
    parseUhttpError fixJdXY fixXdFault (some ⟨502, "Bad Gateway"⟩)
        (some (.transport "conn reset")) =
      .ok (some (.joined (.transport "conn reset") (.sf ⟨"Bad Gateway", 502, "", ""⟩))) :=
  ⟨(transport_error_join fixJdXY fixXdFault ⟨502, "Bad Gateway"⟩ none).1 _,
   (transport_error_join fixJdXY fixXdFault ⟨502, "Bad Gateway"⟩ none).2.1
     (by decide) ⟨"Bad Gateway", 502, "", ""⟩ (by decide),
   (transport_error_join fixJdXY fixXdFault ⟨502, "Bad Gateway"⟩ none).2.2
     (.transport "conn reset") (by decide) ⟨"Bad Gateway", 502, "", ""⟩ (by decide)⟩

/-- C7: for every `QueryResult` returned successfully by `Client.Query` —
whatever the transport and the JSON decode produced — every record in its
`records` sequence has been re-bound to the issuing client before the result
is returned. -/
theorem query_rebinds_records (c : Client) (q : String)
    (send : HttpReq → Except GoError String) (um : String → Option QueryResult)
    (res : QueryResult) (h : c.Query q send um = .ok res) :
    ∀ r ∈ res.records, r.client = some c := by
  intro r hr
  unfold Client.Query at h
  split at h
  · exact Except.noConfusion h
  · split at h
    · exact Except.noConfusion h
    · split at h
      · exact Except.noConfusion h
      · cases h
        simp only [List.mem_map] at hr
        obtain ⟨r0, _, hrec⟩ := hr
        rw [← hrec]
        rfl

/-- Witness for C7: a concrete one-record page whose record comes back bound
to the issuing client. -/
theorem query_rebinds_records_witness :
    (fixRecord.setClient fixClient).client = some fixClient :=
  query_rebinds_records fixClient "/services/data/v54.0/query/01gxx" fixSend fixUm
    fixQueryRes rfl (fixRecord.setClient fixClient) (by simp [fixQueryRes])

/-- C8: the tooling toggle is a sticky client-level flag — after `Tooling()`,
every subsequent query (across any sequence of client operations that does not
call `UnTooling`) targets the tooling query endpoint; after `UnTooling()`,
queries target the standard endpoint again until the next `Tooling()`. -/
theorem tooling_mode_sticky (c : Client) (ops : List COp) (q : String)
    (hq : strStarts q "/services/data" = false) :
    (COp.doUnTooling ∉ ops →
      ((ops.foldl applyOp c.Tooling).queryURL q =
        c.instanceURL ++ "/services/data/v" ++ c.apiVersion ++ "/tooling/query?q=" ++
          queryEscape q)) ∧
    (COp.doTooling ∉ ops →
      ((ops.foldl applyOp c.Tooling.UnTooling).queryURL q =
        c.instanceURL ++ "/services/data/v" ++ c.apiVersion ++ "/query?q=" ++
          queryEscape q)) := by
  constructor
  · intro hops
    rw [queryURL_spec _ q hq, foldl_applyOp_instanceURL, foldl_applyOp_apiVersion,
      foldl_applyOp_tooling_true ops c.Tooling hops rfl]
    rfl
  · intro hops
    rw [queryURL_spec _ q hq, foldl_applyOp_instanceURL, foldl_applyOp_apiVersion,
      foldl_applyOp_tooling_false ops c.Tooling.UnTooling hops rfl]
    rfl

/-- Witness for C8: concrete operation sequences after `Tooling` and after
`UnTooling` hit the tooling and standard endpoints respectively. -/
theorem tooling_mode_sticky_witness :
    (([COp.query "SELECT Id FROM Layout", COp.query "SELECT Id FROM Case"].foldl applyOp
        fixClient.Tooling).queryURL "SELECT Name FROM Layout" =
      "https://na1.salesforce.com" ++ "/services/data/v" ++ "54.0" ++ "/tooling/query?q=" ++
        queryEscape "SELECT Name FROM Layout") ∧
    (([COp.query "SELECT Id FROM Case"].foldl applyOp
        fixClient.Tooling.UnTooling).queryURL "SELECT Name FROM Case" =
      "https://na1.salesforce.com" ++ "/services/data/v" ++ "54.0" ++ "/query?q=" ++
        queryEscape "SELECT Name FROM Case") :=
  ⟨(tooling_mode_sticky fixClient [COp.query "SELECT Id FROM Layout",
      COp.query "SELECT Id FROM Case"] "SELECT Name FROM Layout" (by decide)).1 (by decide),
   (tooling_mode_sticky fixClient [COp.query "SELECT Id FROM Case"]
      "SELECT Name FROM Case" (by decide)).2 (by decide)⟩

/-- C9 counterexample: `makeURL` — invoked by the REST/CRUD call paths —
mutates the shared client during the call: on a client whose stored API
version is `v54.0` the client that comes out of `makeURL` differs from the one
that went in (its API version has been rewritten to `54.0`), refuting the
claim that the API version and the other client fields are read-only during
every query and CRUD call. -/
theorem makeURL_mutates_apiVersion_cex :
    (fixClientV.makeURL "sobjects/Case").1 ≠ fixClientV ∧
    (fixClientV.makeURL "sobjects/Case").1.apiVersion = "54.0" := by decide

/-- C9 (amended): during query and CRUD calls the session token, base URL,
instance URL, client ID, user data and tooling flag are read-only, and queries
do not mutate the client at all — except that `makeURL` rewrites the stored
API version in place, stripping every `v` character. -/
theorem client_fields_read_only_amended (c : Client) (req : String) :
    (c.makeURL req).1.sessionID = c.sessionID ∧
    (c.makeURL req).1.baseURL = c.baseURL ∧
    (c.makeURL req).1.instanceURL = c.instanceURL ∧
    (c.makeURL req).1.clientID = c.clientID ∧
    (c.makeURL req).1.user = c.user ∧
    (c.makeURL req).1.useToolingAPI = c.useToolingAPI ∧
    (c.makeURL req).1.apiVersion = stringsReplaceAll c.apiVersion "v" "" ∧
    (∀ q, applyOp c (.query q) = c) := by
  exact ⟨rfl, rfl, rfl, rfl, rfl, rfl, rfl, fun q => rfl⟩

/-- C10: for every client whose session ID is empty, `Query`,
`ExecuteAnonymous` and `ApexREST` return the authentication error with no
result, for every possible transport and decoder — the result does not depend
on `send`, so no HTTP request is constructed or sent. -/
theorem unauthenticated_ops_fail (c : Client) (h : c.sessionID = "") :
    (∀ q send um, c.Query q send um = .error .authentication) ∧
    (∀ apexBody send um, c.ExecuteAnonymous apexBody send um = .error .authentication) ∧
    (∀ method path send, c.ApexREST method path send = .error .authentication) := by
  have hl : c.isLoggedIn = false := by
    simp [Client.isLoggedIn, h]
  refine ⟨?_, ?_, ?_⟩
  · intro q send um
    simp [Client.Query, hl]
  · intro apexBody send um
    simp [Client.ExecuteAnonymous, hl]
  · intro method path send
    simp [Client.ApexREST, hl]

/-- Witness for C10: a logged-out client fails all three operations with the
authentication error on concrete inputs. -/
theorem unauthenticated_ops_fail_witness :
    fixLoggedOut.Query "SELECT Id FROM Case" fixSend fixUm = .error .authentication ∧
    fixLoggedOut.ExecuteAnonymous "System.debug(1);" fixSend (fun _ => none) =
      .error .authentication ∧
    fixLoggedOut.ApexREST "POST" "services/apexrest/my-endpoint" fixSend =
      .error .authentication :=
  ⟨(unauthenticated_ops_fail fixLoggedOut rfl).1 _ _ _,
   (unauthenticated_ops_fail fixLoggedOut rfl).2.1 _ _ _,
   (unauthenticated_ops_fail fixLoggedOut rfl).2.2 _ _ _⟩

end Simpleforce
